import Mathlib

/-!
# Shallow embedding of the OTP verification backend (src/main.py)

The repository is a FastAPI backend whose only stateful component is a
phone/OTP verification flow over a single Mongo collection `auth`, keyed by
phone number.  We embed the two handlers `start_otp` (`POST /api/auth/start`,
src/main.py lines 85-107) and `verify_otp` (`POST /api/auth/verify`,
src/main.py lines 109-132) as pure state-transformers over an explicit store.

Modelling decisions, each tied to a line of the source:

* The Mongo collection is a map `Store := String → Option AuthRecord`, keyed
  by the `phone` field; `update_one({"phone": p}, ..., upsert=True)` writes
  exactly the record at key `p`, and `find_one({"phone": p})` reads it.  The
  success path of `verify_otp` updates by `_id` of the record it just found
  at key `phone`, which in the map model is the record stored at that key.
* Timestamps (`datetime.now(timezone.utc)`) are natural numbers counting
  seconds; `timedelta(minutes=5)` is 300.  The several `datetime.now()` calls
  inside a single request are modelled as one instant `now`.
* `random.randint(100000, 999999)` is modelled by passing the drawn integer
  `n` as an explicit argument; the contract `100000 ≤ n ≤ 999999` (Python's
  `randint` is inclusive on both ends) appears as a hypothesis where needed.
* Python's f-string `f"{n}"` renders the integer in decimal; `natToDecString`
  below is that decimal rendering (explicit `Nat.rec` on a fuel so that it
  also reduces inside the kernel on concrete inputs).
* Python truthiness in `if not record.get("otp_code") or not
  record.get("otp_expires")` (line 118): a missing or empty `otp_code` is
  falsy, a missing `otp_expires` is falsy (a datetime object is never falsy).
* `req.name.strip()` / `req.phone.strip()` (lines 96-97) are `pyStrip`,
  which removes leading and trailing whitespace characters (modelled over the
  character list so that it also evaluates inside the kernel).
* Pydantic request validation (lines 21-27) is recorded as predicates on the
  inputs, used as hypotheses: the handlers run only on validated bodies.
-/

/-- One document of the `auth` collection (schemas.py `Auth`, plus the
`created_at`/`updated_at` stamps written by `start_otp`). -/
structure AuthRecord where
  name : String
  phone : String
  otp_code : Option String
  otp_expires : Option Nat
  verified : Bool
  created_at : Nat
  updated_at : Nat
deriving DecidableEq, Repr

/-- The `auth` collection, keyed by the `phone` field (at most one record per
phone, which is what the upsert keyed on `{"phone": ...}` maintains). -/
def Store : Type := String → Option AuthRecord

/-- The collection before any request was served. -/
def emptyStore : Store := fun _ => none

/-- Body of the 200 response of `POST /api/auth/start` (line 107). -/
structure StartResponse where
  ok : Bool
  demo_otp : String
  expires_in_sec : Nat
deriving DecidableEq, Repr

/-- Outcome of `POST /api/auth/verify`: the 200 body or one of the four
`HTTPException`s raised on lines 116, 119, 123, 127. -/
inductive VerifyResult where
  /-- 200 `{ok: true, verified: true}` -/
  | ok
  /-- 404 "Start verification first" -/
  | notFound
  /-- 400 "No OTP generated" -/
  | noOtp
  /-- 400 "OTP expired" -/
  | expired
  /-- 400 "Invalid OTP" -/
  | mismatch
deriving DecidableEq, Repr

/-- Decimal digit characters of `n`, most significant first, with explicit
fuel.  Written as a raw `Nat.rec` so that the kernel can evaluate it on
literals (each step peels one off the fuel and divides `n` by 10, so on
`decCharsF n n` only about `log₁₀ n` steps are ever forced). -/
def decCharsF : Nat → Nat → List Char :=
  fun fuel => Nat.rec (motive := fun _ => Nat → List Char)
    (fun _ => [])
    (fun _ ih n => if n = 0 then [] else ih (n / 10) ++ [Char.ofNat (48 + n % 10)])
    fuel

/-- Decimal rendering of a natural number, as Python's `f"{n}"` produces for a
non-negative int. -/
def natToDecString (n : Nat) : String :=
  if n = 0 then "0" else ⟨decCharsF n n⟩

/-- The OTP string built on line 91: `f"{random.randint(100000, 999999)}"`,
with the drawn integer made explicit. -/
def genOtp (n : Nat) : String := natToDecString n

/-- Numeric value of a decimal digit string (to state what integer a generated
code denotes). -/
def decValue (s : String) : Nat :=
  s.data.foldl (fun a c => 10 * a + (c.toNat - 48)) 0

/-- Python's `str.strip()` with no argument (lines 96-97): drop leading and
trailing whitespace. -/
def pyStrip (s : String) : String :=
  ⟨((s.data.dropWhile Char.isWhitespace).reverse.dropWhile Char.isWhitespace).reverse⟩

/-- Pydantic `StartOtpRequest` validation (lines 21-23): name 2-80 chars,
phone 8-16 chars. -/
def validStartRequest (name phone : String) : Prop :=
  2 ≤ name.length ∧ name.length ≤ 80 ∧ 8 ≤ phone.length ∧ phone.length ≤ 16

/-- Pydantic `VerifyOtpRequest` validation (lines 25-27): phone 8-16 chars,
otp 4-6 chars. -/
def validVerifyRequest (phone otp : String) : Prop :=
  8 ≤ phone.length ∧ phone.length ≤ 16 ∧ 4 ≤ otp.length ∧ otp.length ≤ 6

instance (name phone : String) : Decidable (validStartRequest name phone) := by
  unfold validStartRequest; infer_instance

instance (phone otp : String) : Decidable (validVerifyRequest phone otp) := by
  unfold validVerifyRequest; infer_instance

/-- The record written by the upsert on line 104: `$set` applies the payload of
lines 95-102 (note `verified: False` is part of it), `$setOnInsert` stamps
`created_at` only when no record existed.  On update, the only surviving field
of the old record is `created_at`. -/
def startRecord (old : Option AuthRecord) (name key otp : String) (now : Nat) :
    AuthRecord :=
  match old with
  | none =>
    { name := name, phone := key, otp_code := some otp,
      otp_expires := some (now + 300), verified := false,
      created_at := now, updated_at := now }
  | some r =>
    { r with name := name, phone := key, otp_code := some otp,
             otp_expires := some (now + 300), verified := false,
             updated_at := now }

/-- `POST /api/auth/start` handler (src/main.py lines 85-107), db available:
draws the code (argument `n` stands for the `randint` result), computes
`expires = now + 300`, upserts the record keyed by `phone.strip()`, and
returns `{ok: true, demo_otp: otp, expires_in_sec: 300}`. -/
def start_otp (st : Store) (name phone : String) (n now : Nat) :
    Store × StartResponse :=
  let otp := genOtp n
  let key := pyStrip phone
  (fun p => if p = key then some (startRecord (st key) (pyStrip name) key otp now) else st p,
   { ok := true, demo_otp := otp, expires_in_sec := 300 })

/-- `POST /api/auth/verify` handler (src/main.py lines 109-132), db available:
looks the record up by the *raw* request phone (line 114), then applies the
checks of lines 115-127 in order; on success (line 130) sets `verified` and
unsets both otp fields on the record it found. -/
def verify_otp (st : Store) (phone otp : String) (now : Nat) :
    Store × VerifyResult :=
  match st phone with
  | none => (st, .notFound)
  | some record =>
    match record.otp_code, record.otp_expires with
    | some code, some expires =>
      if code = "" then (st, .noOtp)
      else if expires < now then (st, .expired)
      else if otp = code then
        (fun p => if p = phone then
            some { record with verified := true, otp_code := none, otp_expires := none }
          else st p,
         .ok)
      else (st, .mismatch)
    | _, _ => (st, .noOtp)

/-- States of the `auth` collection reachable from the empty collection by any
sequence of the two handlers. -/
inductive Reachable : Store → Prop where
  | empty : Reachable emptyStore
  | step_start (st : Store) (name phone : String) (n now : Nat) :
      Reachable st → Reachable (start_otp st name phone n now).1
  | step_verify (st : Store) (phone otp : String) (now : Nat) :
      Reachable st → Reachable (verify_otp st phone otp now).1

/-- Spec §3 invariant: `verified=true` implies `otp_code` and `otp_expires`
are absent. -/
def VerifiedClearInv (st : Store) : Prop :=
  ∀ p r, st p = some r → r.verified = true →
    r.otp_code = none ∧ r.otp_expires = none

/-- Spec §3 invariant: `otp_code` and `otp_expires` are both present or both
absent. -/
def OtpPairInv (st : Store) : Prop :=
  ∀ p r, st p = some r → (r.otp_code.isSome ↔ r.otp_expires.isSome)

-- Defining equations of `decCharsF` and facts about the generated digits.

theorem decCharsF_zero (n : Nat) : decCharsF 0 n = [] := rfl

theorem decCharsF_succ (fuel n : Nat) :
    decCharsF (fuel + 1) n =
      if n = 0 then [] else decCharsF fuel (n / 10) ++ [Char.ofNat (48 + n % 10)] := rfl

theorem decCharsF_zero_right (fuel : Nat) : decCharsF fuel 0 = [] := by
  cases fuel
  · exact decCharsF_zero 0
  · simp [decCharsF_succ]

theorem charDigit_toNat {d : Nat} (h : d < 10) :
    (Char.ofNat (48 + d)).toNat = 48 + d := by
  interval_cases d <;> decide

theorem charDigit_isDigit {d : Nat} (h : d < 10) :
    (Char.ofNat (48 + d)).isDigit = true := by
  interval_cases d <;> decide

theorem charDigit_ne_zero {d : Nat} (h1 : d ≠ 0) (h2 : d < 10) :
    Char.ofNat (48 + d) ≠ '0' := by
  interval_cases d <;> first | omega | decide

theorem decCharsF_length {fuel n : Nat} (h1 : n ≤ fuel) (h2 : n ≠ 0) :
    (decCharsF fuel n).length = Nat.log 10 n + 1 := by
  induction fuel generalizing n with
  | zero => omega
  | succ fuel ih =>
    rw [decCharsF_succ, if_neg h2]
    rcases Nat.lt_or_ge n 10 with hlt | hge
    · rw [Nat.div_eq_of_lt hlt, decCharsF_zero_right]
      simp [Nat.log_eq_zero_iff.mpr (Or.inl hlt)]
    · have hne : n / 10 ≠ 0 := by
        have h10 := (Nat.one_le_div_iff (b := 10) (by norm_num)).mpr hge
        omega
      have hle : n / 10 ≤ fuel := by
        have := Nat.div_lt_self (by omega : 0 < n) (by norm_num : 1 < 10)
        omega
      rw [List.length_append, ih hle hne, Nat.log_div_base]
      have hpos : 0 < Nat.log 10 n := Nat.log_pos (by norm_num) hge
      simp only [List.length_singleton]
      omega

theorem decCharsF_isDigit {fuel n : Nat} :
    ∀ c ∈ decCharsF fuel n, c.isDigit = true := by
  induction fuel generalizing n with
  | zero => intro c hc; simp [decCharsF_zero] at hc
  | succ fuel ih =>
    intro c hc
    rw [decCharsF_succ] at hc
    by_cases h : n = 0
    · simp [h] at hc
    · rw [if_neg h] at hc
      rcases List.mem_append.mp hc with h1 | h2
      · exact ih c h1
      · have hc2 : c = Char.ofNat (48 + n % 10) := by simpa using h2
        subst hc2
        exact charDigit_isDigit (Nat.mod_lt _ (by norm_num))

theorem decCharsF_head {fuel n : Nat} (h1 : n ≤ fuel) (h2 : n ≠ 0) :
    ∃ d, d ≠ 0 ∧ d < 10 ∧ (decCharsF fuel n).head? = some (Char.ofNat (48 + d)) := by
  induction fuel generalizing n with
  | zero => omega
  | succ fuel ih =>
    rw [decCharsF_succ, if_neg h2]
    rcases Nat.lt_or_ge n 10 with hlt | hge
    · refine ⟨n % 10, by omega, Nat.mod_lt _ (by norm_num), ?_⟩
      rw [Nat.div_eq_of_lt hlt, decCharsF_zero_right]
      simp
    · have hne : n / 10 ≠ 0 := by
        have h10 := (Nat.one_le_div_iff (b := 10) (by norm_num)).mpr hge
        omega
      have hle : n / 10 ≤ fuel := by
        have := Nat.div_lt_self (by omega : 0 < n) (by norm_num : 1 < 10)
        omega
      obtain ⟨d, hd0, hd10, hh⟩ := ih hle hne
      refine ⟨d, hd0, hd10, ?_⟩
      rw [List.head?_append, hh]
      rfl

theorem decCharsF_foldl {fuel n : Nat} (h1 : n ≤ fuel) (acc : Nat) :
    (decCharsF fuel n).foldl (fun a c => 10 * a + (c.toNat - 48)) acc =
      acc * 10 ^ (decCharsF fuel n).length + n := by
  induction fuel generalizing n acc with
  | zero =>
    have : n = 0 := by omega
    simp [decCharsF_zero, this]
  | succ fuel ih =>
    by_cases h : n = 0
    · simp [decCharsF_succ, h]
    · rw [decCharsF_succ, if_neg h]
      have hle : n / 10 ≤ fuel := by
        have := Nat.div_lt_self (by omega : 0 < n) (by norm_num : 1 < 10)
        omega
      rw [List.foldl_append, ih hle acc, List.length_append,
        List.foldl_cons, List.foldl_nil,
        charDigit_toNat (Nat.mod_lt _ (by norm_num))]
      have hmod : 48 + n % 10 - 48 = n % 10 := by omega
      rw [hmod, List.length_singleton]
      calc 10 * (acc * 10 ^ (decCharsF fuel (n / 10)).length + n / 10) + n % 10
          = acc * (10 ^ (decCharsF fuel (n / 10)).length * 10)
              + (10 * (n / 10) + n % 10) := by ring
        _ = acc * 10 ^ ((decCharsF fuel (n / 10)).length + 1) + n := by
            rw [pow_succ, Nat.div_add_mod]

/-- The full characterisation of a generated code for a draw in `randint`'s
range: 6 decimal digits, value `n`, no leading zero. -/
theorem genOtp_spec {n : Nat} (h1 : 100000 ≤ n) (h2 : n ≤ 999999) :
    (genOtp n).length = 6 ∧
    (∀ c ∈ (genOtp n).data, c.isDigit = true) ∧
    decValue (genOtp n) = n ∧
    (genOtp n).data.head? ≠ some '0' := by
  have hne : n ≠ 0 := by omega
  have hgen : genOtp n = ⟨decCharsF n n⟩ := by
    rw [genOtp, natToDecString, if_neg hne]
  have hlog : Nat.log 10 n = 5 := by
    refine Nat.log_eq_of_pow_le_of_lt_pow ?_ ?_
    · have : (10:ℕ) ^ 5 = 100000 := by norm_num
      omega
    · have : (10:ℕ) ^ 6 = 1000000 := by norm_num
      omega
  refine ⟨?_, ?_, ?_, ?_⟩
  · rw [hgen]
    show (decCharsF n n).length = 6
    rw [decCharsF_length le_rfl hne, hlog]
  · rw [hgen]
    exact decCharsF_isDigit
  · rw [hgen]
    show (decCharsF n n).foldl _ 0 = n
    rw [decCharsF_foldl le_rfl 0]
    simp
  · rw [hgen]
    obtain ⟨d, hd0, hd10, hh⟩ := decCharsF_head (le_rfl : n ≤ n) hne
    show (decCharsF n n).head? ≠ some '0'
    rw [hh]
    intro hcontra
    exact charDigit_ne_zero hd0 hd10 (by injection hcontra)

/-- Generated codes are never the empty string (needed because line 118 of the
source treats an empty `otp_code` as "no OTP"). -/
theorem genOtp_ne_empty {n : Nat} (h1 : 100000 ≤ n) (h2 : n ≤ 999999) :
    genOtp n ≠ "" := by
  intro hcontra
  have hlen := (genOtp_spec h1 h2).1
  rw [hcontra] at hlen
  simp [String.length] at hlen

/-- Distinct draws give distinct code strings (decimal rendering is injective
on the 6-digit range). -/
theorem genOtp_inj {m n : Nat} (hm1 : 100000 ≤ m) (hm2 : m ≤ 999999)
    (hn1 : 100000 ≤ n) (hn2 : n ≤ 999999) (hmn : m ≠ n) :
    genOtp m ≠ genOtp n := by
  intro hcontra
  have hvm := (genOtp_spec hm1 hm2).2.2.1
  have hvn := (genOtp_spec hn1 hn2).2.2.1
  rw [hcontra, hvn] at hvm
  exact hmn hvm.symm

-- Unfolding equations for the two handlers, shared by the claim proofs.

theorem startRecord_otp_code (old : Option AuthRecord) (name key otp : String)
    (now : Nat) : (startRecord old name key otp now).otp_code = some otp := by
  cases old <;> rfl

theorem startRecord_otp_expires (old : Option AuthRecord) (name key otp : String)
    (now : Nat) : (startRecord old name key otp now).otp_expires = some (now + 300) := by
  cases old <;> rfl

theorem startRecord_verified (old : Option AuthRecord) (name key otp : String)
    (now : Nat) : (startRecord old name key otp now).verified = false := by
  cases old <;> rfl

theorem startRecord_phone (old : Option AuthRecord) (name key otp : String)
    (now : Nat) : (startRecord old name key otp now).phone = key := by
  cases old <;> rfl

theorem start_otp_fst_key (st : Store) (name phone : String) (n now : Nat) :
    (start_otp st name phone n now).1 (pyStrip phone) =
      some (startRecord (st (pyStrip phone)) (pyStrip name) (pyStrip phone)
        (genOtp n) now) := by
  simp [start_otp]

theorem start_otp_fst_other (st : Store) (name phone : String) (n now : Nat)
    (p : String) (h : p ≠ pyStrip phone) :
    (start_otp st name phone n now).1 p = st p := by
  simp [start_otp, h]

theorem start_otp_snd (st : Store) (name phone : String) (n now : Nat) :
    (start_otp st name phone n now).2 =
      { ok := true, demo_otp := genOtp n, expires_in_sec := 300 } := rfl

theorem verify_otp_none (st : Store) (phone otp : String) (now : Nat)
    (h : st phone = none) : verify_otp st phone otp now = (st, .notFound) := by
  simp [verify_otp, h]

theorem verify_otp_no_code (st : Store) (phone otp : String) (now : Nat)
    (record : AuthRecord) (hrec : st phone = some record)
    (hc : record.otp_code = none) :
    verify_otp st phone otp now = (st, .noOtp) := by
  simp only [verify_otp, hrec]
  rw [hc]

theorem verify_otp_no_expires (st : Store) (phone otp : String) (now : Nat)
    (record : AuthRecord) (hrec : st phone = some record)
    (he : record.otp_expires = none) :
    verify_otp st phone otp now = (st, .noOtp) := by
  simp only [verify_otp, hrec]
  rw [he]
  cases record.otp_code <;> rfl

theorem verify_otp_some (st : Store) (phone otp : String) (now : Nat)
    (record : AuthRecord) (code : String) (expires : Nat)
    (hrec : st phone = some record) (hc : record.otp_code = some code)
    (he : record.otp_expires = some expires) :
    verify_otp st phone otp now =
      if code = "" then (st, .noOtp)
      else if expires < now then (st, .expired)
      else if otp = code then
        (fun p => if p = phone then
            some { record with verified := true, otp_code := none,
                               otp_expires := none }
          else st p,
         .ok)
      else (st, .mismatch) := by
  simp only [verify_otp, hrec]
  rw [hc, he]

/-- Exhaustive description of `verify_otp`'s effect on the store: either the
store is untouched, or the call succeeded and exactly the record found at the
raw phone key was rewritten (verified set, both otp fields removed). -/
theorem verify_otp_fst_cases (st : Store) (phone otp : String) (now : Nat) :
    ((verify_otp st phone otp now).1 = st ∧
     (verify_otp st phone otp now).2 ≠ .ok) ∨
    ((verify_otp st phone otp now).2 = .ok ∧
     ∃ record, st phone = some record ∧
       (verify_otp st phone otp now).1 = fun p =>
         if p = phone then
           some { record with verified := true, otp_code := none,
                              otp_expires := none }
         else st p) := by
  cases hrec : st phone with
  | none =>
    left
    rw [verify_otp_none st phone otp now hrec]
    exact ⟨rfl, by simp⟩
  | some record =>
    cases hc : record.otp_code with
    | none =>
      left
      rw [verify_otp_no_code st phone otp now record hrec hc]
      exact ⟨rfl, by simp⟩
    | some code =>
      cases he : record.otp_expires with
      | none =>
        left
        rw [verify_otp_no_expires st phone otp now record hrec he]
        exact ⟨rfl, by simp⟩
      | some expires =>
        rw [verify_otp_some st phone otp now record code expires hrec hc he]
        by_cases h1 : code = ""
        · left; simp [h1]
        · by_cases h2 : expires < now
          · left; simp [h1, h2]
          · by_cases h3 : otp = code
            · right
              refine ⟨by simp [h1, h2, h3], record, rfl, by simp [h1, h2, h3]⟩
            · left; simp [h1, h2, h3]

/-- A failing `verify_otp` never writes. -/
theorem verify_otp_fail_fst (st : Store) (phone otp : String) (now : Nat)
    (h : (verify_otp st phone otp now).2 ≠ .ok) :
    (verify_otp st phone otp now).1 = st := by
  rcases verify_otp_fst_cases st phone otp now with ⟨h1, _⟩ | ⟨h2, _⟩
  · exact h1
  · exact absurd h2 h

theorem start_preserves_VerifiedClearInv (st : Store) (name phone : String)
    (n now : Nat) (h : VerifiedClearInv st) :
    VerifiedClearInv (start_otp st name phone n now).1 := by
  intro p r hp hv
  by_cases hk : p = pyStrip phone
  · subst hk
    rw [start_otp_fst_key] at hp
    have hr := Option.some.inj hp
    rw [← hr, startRecord_verified] at hv
    exact absurd hv (by simp)
  · rw [start_otp_fst_other st name phone n now p hk] at hp
    exact h p r hp hv

theorem verify_preserves_VerifiedClearInv (st : Store) (phone otp : String)
    (now : Nat) (h : VerifiedClearInv st) :
    VerifiedClearInv (verify_otp st phone otp now).1 := by
  rcases verify_otp_fst_cases st phone otp now with ⟨h1, _⟩ | ⟨_, record, hrec, hfst⟩
  · rw [h1]; exact h
  · intro p r hp hv
    rw [hfst] at hp
    simp only [] at hp
    by_cases hk : p = phone
    · rw [if_pos hk] at hp
      have hr := Option.some.inj hp
      rw [← hr]
      exact ⟨rfl, rfl⟩
    · rw [if_neg hk] at hp
      exact h p r hp hv

theorem start_preserves_OtpPairInv (st : Store) (name phone : String)
    (n now : Nat) (h : OtpPairInv st) :
    OtpPairInv (start_otp st name phone n now).1 := by
  intro p r hp
  by_cases hk : p = pyStrip phone
  · subst hk
    rw [start_otp_fst_key] at hp
    have hr := Option.some.inj hp
    rw [← hr, startRecord_otp_code, startRecord_otp_expires]
    simp
  · rw [start_otp_fst_other st name phone n now p hk] at hp
    exact h p r hp

theorem verify_preserves_OtpPairInv (st : Store) (phone otp : String)
    (now : Nat) (h : OtpPairInv st) :
    OtpPairInv (verify_otp st phone otp now).1 := by
  rcases verify_otp_fst_cases st phone otp now with ⟨h1, _⟩ | ⟨_, record, hrec, hfst⟩
  · rw [h1]; exact h
  · intro p r hp
    rw [hfst] at hp
    simp only [] at hp
    by_cases hk : p = phone
    · rw [if_pos hk] at hp
      have hr := Option.some.inj hp
      rw [← hr]
      simp
    · rw [if_neg hk] at hp
      exact h p r hp

theorem emptyStore_VerifiedClearInv : VerifiedClearInv emptyStore := by
  intro p r hp
  exact absurd hp (by simp [emptyStore])

theorem emptyStore_OtpPairInv : OtpPairInv emptyStore := by
  intro p r hp
  exact absurd hp (by simp [emptyStore])

theorem reachable_VerifiedClearInv (st : Store) (h : Reachable st) :
    VerifiedClearInv st := by
  induction h with
  | empty => exact emptyStore_VerifiedClearInv
  | step_start st name phone n now _ ih =>
    exact start_preserves_VerifiedClearInv st name phone n now ih
  | step_verify st phone otp now _ ih =>
    exact verify_preserves_VerifiedClearInv st phone otp now ih

-- Sanity checks of the embedding on concrete runs.

example : genOtp 123456 = "123456" := by decide

example :
    (verify_otp (start_otp emptyStore "Alice" "5551234567" 123456 0).1
      "5551234567" "123456" 10).2 = .ok := by decide

example :
    (verify_otp (start_otp emptyStore "Alice" "5551234567" 123456 0).1
      "5551234567" "654321" 10).2 = .mismatch := by decide

example :
    (verify_otp (start_otp emptyStore "Alice" "5551234567" 123456 0).1
      "5551234567" "123456" 301).2 = .expired := by decide

example : (verify_otp emptyStore "5551234567" "123456" 0).2 = .notFound := by
  decide

-- Claim theorems.

/-- C1 (counterexample to the claim as stated): the `$set` payload of
`start_otp` (src/main.py lines 95-104) contains `"verified": False`, so a new
`StartVerification` does NOT leave `verified` unchanged.  Concretely: after
start + successful verify the record has `verified = true`, but one more
start for the same phone flips it back to `false`. -/
theorem start_otp_clobbers_verified_cex :
    (((verify_otp (start_otp emptyStore "Alice" "5551234567" 123456 0).1
        "5551234567" "123456" 10).1 "5551234567").map AuthRecord.verified
      = some true) ∧
    (((start_otp (verify_otp (start_otp emptyStore "Alice" "5551234567" 123456 0).1
        "5551234567" "123456" 10).1 "Alice" "5551234567" 654321 20).1
        "5551234567").map AuthRecord.verified = some false) := by
  decide

/-- C1 (amended): for every phone that already has an AuthRecord,
`StartVerification` overwrites name, otp_code, otp_expires, updated_at AND
verified (always to `false`), preserving only `created_at`; every other key of
the store is untouched.  In particular a record with `verified = true` has
`verified = false` after a new start for that phone. -/
theorem start_otp_update_frame (st : Store) (name phone : String) (n now : Nat)
    (r : AuthRecord) (h : st (pyStrip phone) = some r) :
    (start_otp st name phone n now).1 (pyStrip phone) =
      some { r with name := pyStrip name, phone := pyStrip phone,
                    otp_code := some (genOtp n),
                    otp_expires := some (now + 300),
                    verified := false, updated_at := now } ∧
    ∀ p, p ≠ pyStrip phone → (start_otp st name phone n now).1 p = st p := by
  constructor
  · rw [start_otp_fst_key, h]
    rfl
  · intro p hp
    exact start_otp_fst_other st name phone n now p hp

/-- Witness for `start_otp_update_frame`: a store holding a verified record
for "5551234567"; after a new start the record is the frame-updated one (with
`verified := false` and `created_at` kept). -/
theorem start_otp_update_frame_witness :
    (start_otp (fun p => if p = "5551234567" then
        some { name := "Alice", phone := "5551234567", otp_code := none,
               otp_expires := none, verified := true, created_at := 3,
               updated_at := 3 }
      else none) "Bob" "5551234567" 654321 20).1 (pyStrip "5551234567") =
      some { name := pyStrip "Bob", phone := pyStrip "5551234567",
             otp_code := some (genOtp 654321), otp_expires := some (20 + 300),
             verified := false, created_at := 3, updated_at := 20 } :=
  (start_otp_update_frame
    (fun p => if p = "5551234567" then
        some { name := "Alice", phone := "5551234567", otp_code := none,
               otp_expires := none, verified := true, created_at := 3,
               updated_at := 3 }
      else none) "Bob" "5551234567" 654321 20
    { name := "Alice", phone := "5551234567", otp_code := none,
      otp_expires := none, verified := true, created_at := 3,
      updated_at := 3 } (by decide)).1

/-- C2 (counterexample to the claim as stated): "Alice" / " 12345678" is a
valid input pair (name 5 chars, phone 9 chars), yet start followed immediately
by verify with the identical phone string and the returned code fails with
NotFound, and no record is stored under the raw phone — because start stored
it under the stripped key "12345678". -/
theorem start_verify_whitespace_cex :
    validStartRequest "Alice" " 12345678" ∧
    (verify_otp (start_otp emptyStore "Alice" " 12345678" 123456 0).1
        " 12345678"
        (start_otp emptyStore "Alice" " 12345678" 123456 0).2.demo_otp 0).2
      = .notFound ∧
    (verify_otp (start_otp emptyStore "Alice" " 12345678" 123456 0).1
        " 12345678"
        (start_otp emptyStore "Alice" " 12345678" 123456 0).2.demo_otp 0).1
        " 12345678" = none := by
  decide

/-- C2 (amended): for every valid input pair whose phone carries no leading or
trailing whitespace (`pyStrip phone = phone`), StartVerification immediately
followed by VerifyCode with the same phone string and the returned code
succeeds, and the stored record then has `verified = true` with both otp
fields absent. -/
theorem start_then_verify_ok (st : Store) (name phone : String) (n now : Nat)
    (_hv : validStartRequest name phone) (hstrip : pyStrip phone = phone)
    (hn1 : 100000 ≤ n) (hn2 : n ≤ 999999) :
    (verify_otp (start_otp st name phone n now).1 phone
        (start_otp st name phone n now).2.demo_otp now).2 = .ok ∧
    ((verify_otp (start_otp st name phone n now).1 phone
        (start_otp st name phone n now).2.demo_otp now).1 phone).map
      (fun r => (r.verified, r.otp_code, r.otp_expires))
      = some (true, none, none) := by
  have hself := start_otp_fst_key st name phone n now
  rw [hstrip] at hself
  have hdemo : (start_otp st name phone n now).2.demo_otp = genOtp n := rfl
  have hV := verify_otp_some ((start_otp st name phone n now).1) phone
      (genOtp n) now
      (startRecord (st phone) (pyStrip name) phone (genOtp n) now)
      (genOtp n) (now + 300) hself
      (startRecord_otp_code _ _ _ _ _) (startRecord_otp_expires _ _ _ _ _)
  rw [hdemo, hV]
  have h1 : ¬ (genOtp n = "") := genOtp_ne_empty hn1 hn2
  have h2 : ¬ (now + 300 < now) := by omega
  rw [if_neg h1, if_neg h2, if_pos rfl]
  exact ⟨rfl, by simp⟩

/-- Witness for `start_then_verify_ok` at "Alice" / "5551234567", draw 123456,
time 0. -/
theorem start_then_verify_ok_witness :
    (verify_otp (start_otp emptyStore "Alice" "5551234567" 123456 0).1
        "5551234567"
        (start_otp emptyStore "Alice" "5551234567" 123456 0).2.demo_otp 0).2
      = .ok :=
  (start_then_verify_ok emptyStore "Alice" "5551234567" 123456 0
    (by decide) (by decide) (by norm_num) (by norm_num)).1

/-- C3: the invariant "verified = true implies otp_code and otp_expires are
absent" is preserved by every `start_otp` and every `verify_otp`, and it holds
in every store reachable from the empty store by any sequence of the two
operations. -/
theorem verified_clear_invariant :
    (∀ st name phone n now, VerifiedClearInv st →
      VerifiedClearInv (start_otp st name phone n now).1) ∧
    (∀ st phone otp now, VerifiedClearInv st →
      VerifiedClearInv (verify_otp st phone otp now).1) ∧
    (∀ st, Reachable st → VerifiedClearInv st) :=
  ⟨start_preserves_VerifiedClearInv, verify_preserves_VerifiedClearInv,
   reachable_VerifiedClearInv⟩

/-- Witness for `verified_clear_invariant`: the invariant holds in the
concrete reachable state obtained by one start and one successful verify. -/
theorem verified_clear_invariant_witness :
    VerifiedClearInv (verify_otp
      (start_otp emptyStore "Alice" "5551234567" 123456 0).1
      "5551234567" "123456" 10).1 :=
  verified_clear_invariant.2.2 _
    (Reachable.step_verify _ "5551234567" "123456" 10
      (Reachable.step_start emptyStore "Alice" "5551234567" 123456 0
        Reachable.empty))

/-- C4: both handlers preserve the invariant that `otp_code` and `otp_expires`
are both present or both absent; moreover `start_otp` always writes both
fields together (the record at the stripped key has both present), and a
successful `verify_otp` removes both together (the record at the phone key
has both absent). -/
theorem otp_pair_invariant :
    (∀ st name phone n now, OtpPairInv st →
      OtpPairInv (start_otp st name phone n now).1) ∧
    (∀ st name phone n now,
      ((start_otp st name phone n now).1 (pyStrip phone)).map
        (fun r => (r.otp_code.isSome, r.otp_expires.isSome))
      = some (true, true)) ∧
    (∀ st phone otp now, OtpPairInv st →
      OtpPairInv (verify_otp st phone otp now).1) ∧
    (∀ st phone otp now, (verify_otp st phone otp now).2 = .ok →
      ((verify_otp st phone otp now).1 phone).map
        (fun r => (r.otp_code, r.otp_expires)) = some (none, none)) := by
  refine ⟨start_preserves_OtpPairInv, ?_, verify_preserves_OtpPairInv, ?_⟩
  · intro st name phone n now
    rw [start_otp_fst_key]
    simp [startRecord_otp_code, startRecord_otp_expires]
  · intro st phone otp now hok
    rcases verify_otp_fst_cases st phone otp now with ⟨_, hne⟩ |
      ⟨_, record, hrec, hfst⟩
    · exact absurd hok hne
    · rw [hfst]
      simp

/-- Witness for `otp_pair_invariant`: the invariant is preserved by a start
from the empty store. -/
theorem otp_pair_invariant_witness :
    OtpPairInv (start_otp emptyStore "Alice" "5551234567" 123456 0).1 :=
  otp_pair_invariant.1 emptyStore "Alice" "5551234567" 123456 0
    emptyStore_OtpPairInv

/-- C5 (counterexample to the claim as stated): `randint` may return the same
value twice.  When both consecutive starts for "5551234567" draw 123456, the
code returned by the FIRST call equals the stored one, so verifying with it
returns ok — it is not rejected with Mismatch. -/
theorem repeat_code_cex :
    ((start_otp (start_otp emptyStore "Alice" "5551234567" 123456 0).1
        "Alice" "5551234567" 123456 1).2.demo_otp
      = (start_otp emptyStore "Alice" "5551234567" 123456 0).2.demo_otp) ∧
    ((verify_otp (start_otp (start_otp emptyStore "Alice" "5551234567" 123456 0).1
        "Alice" "5551234567" 123456 1).1 "5551234567"
        (start_otp emptyStore "Alice" "5551234567" 123456 0).2.demo_otp 2).2
      = .ok) := by
  decide

/-- C5 (amended): after two consecutive starts for the same phone (drawing
`n1` then `n2`), an unexpired VerifyCode succeeds only with the second code
`genOtp n2`; verifying with the second code succeeds; and WHEN THE TWO DRAWS
DIFFER (`n1 ≠ n2`, i.e. the two returned code strings differ), verifying with
the first code is rejected with Mismatch — the second upsert overwrote it. -/
theorem second_code_wins (st : Store) (name1 name2 phone : String)
    (n1 n2 t1 t2 t3 : Nat) (hstrip : pyStrip phone = phone)
    (h11 : 100000 ≤ n1) (h12 : n1 ≤ 999999)
    (h21 : 100000 ≤ n2) (h22 : n2 ≤ 999999) (ht : t3 ≤ t2 + 300) :
    (∀ otp, (verify_otp (start_otp (start_otp st name1 phone n1 t1).1
        name2 phone n2 t2).1 phone otp t3).2 = .ok → otp = genOtp n2) ∧
    ((verify_otp (start_otp (start_otp st name1 phone n1 t1).1
        name2 phone n2 t2).1 phone (genOtp n2) t3).2 = .ok) ∧
    (n1 ≠ n2 → (verify_otp (start_otp (start_otp st name1 phone n1 t1).1
        name2 phone n2 t2).1 phone (genOtp n1) t3).2 = .mismatch) := by
  have hself := start_otp_fst_key (start_otp st name1 phone n1 t1).1
    name2 phone n2 t2
  rw [hstrip] at hself
  have hV := fun otp => verify_otp_some
      ((start_otp (start_otp st name1 phone n1 t1).1 name2 phone n2 t2).1)
      phone otp t3
      (startRecord ((start_otp st name1 phone n1 t1).1 phone)
        (pyStrip name2) phone (genOtp n2) t2)
      (genOtp n2) (t2 + 300) hself
      (startRecord_otp_code _ _ _ _ _) (startRecord_otp_expires _ _ _ _ _)
  have h1 : ¬ (genOtp n2 = "") := genOtp_ne_empty h21 h22
  have h2 : ¬ (t2 + 300 < t3) := by omega
  refine ⟨?_, ?_, ?_⟩
  · intro otp hok
    rw [hV otp, if_neg h1, if_neg h2] at hok
    by_cases h3 : otp = genOtp n2
    · exact h3
    · rw [if_neg h3] at hok
      exact absurd hok (by simp)
  · rw [hV (genOtp n2), if_neg h1, if_neg h2, if_pos rfl]
  · intro hne
    rw [hV (genOtp n1), if_neg h1, if_neg h2,
      if_neg (genOtp_inj h11 h12 h21 h22 hne)]

/-- Witness for `second_code_wins`: draws 111111 then 222222; the second code
verifies. -/
theorem second_code_wins_witness :
    (verify_otp (start_otp (start_otp emptyStore "Alice" "5551234567" 111111 0).1
        "Alice" "5551234567" 222222 1).1 "5551234567" (genOtp 222222) 2).2
      = .ok :=
  (second_code_wins emptyStore "Alice" "Alice" "5551234567" 111111 222222 0 1 2
    (by decide) (by norm_num) (by norm_num) (by norm_num) (by norm_num)
    (by norm_num)).2.1

/-- C6: for a record with an outstanding challenge (code present and
non-empty, expiry present), VerifyCode fails with Expired exactly when the
current time is strictly after the stored expiry; at `now = expires` the
expiry check passes and the outcome is decided by the code comparison
(ok on match, Mismatch otherwise). -/
theorem expired_iff_strictly_after (st : Store) (phone otp : String)
    (now : Nat) (r : AuthRecord) (code : String) (expires : Nat)
    (hrec : st phone = some r) (hcode : r.otp_code = some code)
    (hne : code ≠ "") (hexp : r.otp_expires = some expires) :
    ((verify_otp st phone otp now).2 = .expired ↔ expires < now) ∧
    (now = expires →
      (verify_otp st phone otp now).2
        = if otp = code then .ok else .mismatch) := by
  have hV := verify_otp_some st phone otp now r code expires hrec hcode hexp
  rw [hV, if_neg hne]
  constructor
  · by_cases h2 : expires < now
    · simp [h2]
    · by_cases h3 : otp = code <;> simp [h2, h3]
  · intro hnow
    have h2 : ¬ expires < now := by omega
    rw [if_neg h2]
    by_cases h3 : otp = code
    · rw [if_pos h3, if_pos h3]
    · rw [if_neg h3, if_neg h3]

/-- Witness for `expired_iff_strictly_after`: exactly at the expiry instant
(now = expires = 300) the call is not Expired. -/
theorem expired_iff_strictly_after_witness :
    ((verify_otp (start_otp emptyStore "Alice" "5551234567" 123456 0).1
        "5551234567" "123456" 300).2 = .expired ↔ 300 < 300) :=
  (expired_iff_strictly_after
    (start_otp emptyStore "Alice" "5551234567" 123456 0).1
    "5551234567" "123456" 300
    { name := "Alice", phone := "5551234567",
      otp_code := some (genOtp 123456), otp_expires := some 300,
      verified := false, created_at := 0, updated_at := 0 }
    (genOtp 123456) 300 (by decide) (by decide) (by decide) (by decide)).1

/-- C7: when no record exists for the phone (no start was ever performed for
it), VerifyCode fails with NotFound (the 404 of line 116) and leaves the
store exactly as it was. -/
theorem verify_without_start_notFound (st : Store) (phone otp : String)
    (now : Nat) (h : st phone = none) :
    (verify_otp st phone otp now).2 = .notFound ∧
    (verify_otp st phone otp now).1 = st := by
  rw [verify_otp_none st phone otp now h]
  exact ⟨rfl, rfl⟩

/-- Witness for `verify_without_start_notFound` on the empty store. -/
theorem verify_without_start_notFound_witness :
    (verify_otp emptyStore "5551234567" "1234" 0).2 = .notFound ∧
    (verify_otp emptyStore "5551234567" "1234" 0).1 = emptyStore :=
  verify_without_start_notFound emptyStore "5551234567" "1234" 0 rfl

/-- C8: a code generated from a draw `n` of `randint(100000, 999999)` is a
6-character decimal string of value `n` (so in 100000..999999, with no
leading zero); it is what `start_otp` both stores in `otp_code` and returns
as `demo_otp`, together with `expires_in_sec = 300` and `ok = true`.  Since
`n` ranges over the whole inclusive range and `decValue (genOtp n) = n`,
every value of the range is a possible output. -/
theorem generated_code_shape (st : Store) (name phone : String) (n now : Nat)
    (h1 : 100000 ≤ n) (h2 : n ≤ 999999) :
    (start_otp st name phone n now).2.demo_otp = genOtp n ∧
    (genOtp n).length = 6 ∧
    (∀ c ∈ (genOtp n).data, c.isDigit = true) ∧
    decValue (genOtp n) = n ∧
    100000 ≤ decValue (genOtp n) ∧ decValue (genOtp n) ≤ 999999 ∧
    (genOtp n).data.head? ≠ some '0' ∧
    ((start_otp st name phone n now).1 (pyStrip phone)).map
      AuthRecord.otp_code = some (some (genOtp n)) ∧
    (start_otp st name phone n now).2.expires_in_sec = 300 ∧
    (start_otp st name phone n now).2.ok = true := by
  obtain ⟨hlen, hdig, hval, hhead⟩ := genOtp_spec h1 h2
  refine ⟨rfl, hlen, hdig, hval, ?_, ?_, hhead, ?_, rfl, rfl⟩
  · omega
  · omega
  · rw [start_otp_fst_key]
    simp [startRecord_otp_code]

/-- Witness for `generated_code_shape` at draw 123456. -/
theorem generated_code_shape_witness :
    (start_otp emptyStore "Alice" "5551234567" 123456 0).2.demo_otp
      = genOtp 123456 :=
  (generated_code_shape emptyStore "Alice" "5551234567" 123456 0
    (by norm_num) (by norm_num)).1

/-- C9: `start_otp` stores the record under the stripped phone (the stored
`phone` field is the stripped string and no other key is written), while
`verify_otp` looks up by the raw request phone (it answers NotFound exactly
when the raw key is absent); consequently for the valid input
"Alice" / " 12345678" (leading space, 9 chars) start followed by verify with
the identical phone string fails with NotFound. -/
theorem strip_store_raw_lookup :
    (∀ st name phone n now,
      ((start_otp st name phone n now).1 (pyStrip phone)).map
        AuthRecord.phone = some (pyStrip phone)) ∧
    (∀ st name phone n now p, p = pyStrip phone ∨
      (start_otp st name phone n now).1 p = st p) ∧
    (∀ st phone otp now,
      (verify_otp st phone otp now).2 = .notFound ↔ st phone = none) ∧
    (validStartRequest "Alice" " 12345678" ∧
      pyStrip " 12345678" ≠ " 12345678" ∧
      (verify_otp (start_otp emptyStore "Alice" " 12345678" 123456 0).1
        " 12345678"
        (start_otp emptyStore "Alice" " 12345678" 123456 0).2.demo_otp 0).2
        = .notFound) := by
  refine ⟨?_, ?_, ?_, by decide⟩
  · intro st name phone n now
    rw [start_otp_fst_key]
    simp [startRecord_phone]
  · intro st name phone n now p
    by_cases hk : p = pyStrip phone
    · exact Or.inl hk
    · exact Or.inr (start_otp_fst_other st name phone n now p hk)
  · intro st phone otp now
    constructor
    · intro hnf
      cases hrec : st phone with
      | none => rfl
      | some record =>
        exfalso
        cases hc : record.otp_code with
        | none =>
          rw [verify_otp_no_code st phone otp now record hrec hc] at hnf
          simp at hnf
        | some code =>
          cases he : record.otp_expires with
          | none =>
            rw [verify_otp_no_expires st phone otp now record hrec he] at hnf
            simp at hnf
          | some expires =>
            rw [verify_otp_some st phone otp now record code expires
              hrec hc he] at hnf
            by_cases hb1 : code = ""
            · rw [if_pos hb1] at hnf
              exact absurd hnf (by simp)
            · rw [if_neg hb1] at hnf
              by_cases hb2 : expires < now
              · rw [if_pos hb2] at hnf
                exact absurd hnf (by simp)
              · rw [if_neg hb2] at hnf
                by_cases hb3 : otp = code
                · rw [if_pos hb3] at hnf
                  exact absurd hnf (by simp)
                · rw [if_neg hb3] at hnf
                  exact absurd hnf (by simp)
    · intro hnone
      rw [verify_otp_none st phone otp now hnone]

/-- C10: a failing VerifyCode (NotFound, no outstanding challenge, Expired or
Mismatch — anything other than ok) performs no write: the whole store, and in
particular the record for the phone with its `otp_code`, `otp_expires` and
`verified`, is unchanged. -/
theorem verify_fail_is_atomic (st : Store) (phone otp : String) (now : Nat)
    (h : (verify_otp st phone otp now).2 ≠ .ok) :
    (verify_otp st phone otp now).1 = st :=
  verify_otp_fail_fst st phone otp now h

/-- Witness for `verify_fail_is_atomic`: a mismatching code against a live
challenge leaves the store untouched. -/
theorem verify_fail_is_atomic_witness :
    (verify_otp (start_otp emptyStore "Alice" "5551234567" 123456 0).1
        "5551234567" "999999" 1).1
      = (start_otp emptyStore "Alice" "5551234567" 123456 0).1 :=
  verify_fail_is_atomic (start_otp emptyStore "Alice" "5551234567" 123456 0).1
    "5551234567" "999999" 1 (by decide)
